import Mathlib

/-!
Verification of the AlloyDB survey MCP server's query-builder and dispatch
layer, shallowly embedded from `alloydb_survey_mcp/database.py` and
`alloydb_survey_mcp/server.py`.
-/

/-- A value bound as a positional SQL parameter (asyncpg receives Python
ints and strings here). -/
inductive SqlValue where
  | int (n : Int)
  | str (s : String)
deriving DecidableEq, Repr

/-- A built query: SQL text plus the ordered bound-parameter list. -/
structure BuiltQuery where
  sql : String
  params : List SqlValue
deriving DecidableEq, Repr

/-- Python truthiness of an `Optional[int]` value: `None` and `0` are falsy. -/
def truthyInt : Option Int → Bool
  | none => false
  | some n => n != 0

/-- Python truthiness of an `Optional[str]` value: `None` and `""` are falsy. -/
def truthyStr : Option String → Bool
  | none => false
  | some s => s != ""

/-- The base SELECT of `AlloyDBConnection.get_survey_data`
(database.py lines 96-109), reproduced with its exact whitespace. -/
def baseSurveyQuery : String :=
  "\n        SELECT \n            survey_id,\n            respondent_id,\n            survey_date,\n            location,\n            respondent_type,\n            questions_responses,\n            metadata,\n            created_at,\n            updated_at\n        FROM surveys\n        WHERE 1=1\n        "

/-- One conditional filter block of `get_survey_data`: when `cond` holds,
append the fragment followed by the incremented placeholder number to the
SQL text, append the value to the parameter list, and bump the counter. -/
def addFilter (cond : Bool) (frag : String) (v : SqlValue) :
    String × List SqlValue × Nat → String × List SqlValue × Nat
  | (q, ps, n) =>
    if cond then (q ++ frag ++ Nat.repr (n + 1), ps ++ [v], n + 1) else (q, ps, n)

/-- Query construction of `AlloyDBConnection.get_survey_data`
(database.py lines 111-141): five sequential conditional filter blocks in
source order, then the fixed ORDER BY / LIMIT tail with the limit
interpolated as text. -/
def get_survey_data_query (survey_id : Option Int)
    (location date_from date_to respondent_type : Option String)
    (limit : Int) : BuiltQuery :=
  let s0 : String × List SqlValue × Nat := (baseSurveyQuery, [], 0)
  let s1 := addFilter (truthyInt survey_id) " AND survey_id = $"
    (SqlValue.int (survey_id.getD 0)) s0
  let s2 := addFilter (truthyStr location) " AND location ILIKE $"
    (SqlValue.str ("%" ++ location.getD "" ++ "%")) s1
  let s3 := addFilter (truthyStr date_from) " AND survey_date >= $"
    (SqlValue.str (date_from.getD "")) s2
  let s4 := addFilter (truthyStr date_to) " AND survey_date <= $"
    (SqlValue.str (date_to.getD "")) s3
  let s5 := addFilter (truthyStr respondent_type) " AND respondent_type = $"
    (SqlValue.str (respondent_type.getD "")) s4
  ⟨s5.1 ++ " ORDER BY survey_date DESC LIMIT " ++ Int.repr limit, s5.2.1⟩

/-- Run a list of filter blocks in order (used to reason uniformly about
the five sequential blocks of `get_survey_data`). -/
def runFilters : String × List SqlValue × Nat → List (Bool × String × SqlValue) →
    String × List SqlValue × Nat
  | st, [] => st
  | st, (c, f, v) :: rest => runFilters (addFilter c f v st) rest

/-- The five filter blocks of `get_survey_data` in their fixed source
order: identifier, location, date-from, date-to, respondent-type. -/
def surveyFilterSteps (survey_id : Option Int)
    (location date_from date_to respondent_type : Option String) :
    List (Bool × String × SqlValue) :=
  [ (truthyInt survey_id, " AND survey_id = $", SqlValue.int (survey_id.getD 0)),
    (truthyStr location, " AND location ILIKE $",
      SqlValue.str ("%" ++ location.getD "" ++ "%")),
    (truthyStr date_from, " AND survey_date >= $", SqlValue.str (date_from.getD "")),
    (truthyStr date_to, " AND survey_date <= $", SqlValue.str (date_to.getD "")),
    (truthyStr respondent_type, " AND respondent_type = $",
      SqlValue.str (respondent_type.getD "")) ]

/-- The unnumbered fragments of the blocks whose condition holds, in order. -/
def selectedFrags : List (Bool × String × SqlValue) → List String
  | [] => []
  | (c, f, _) :: rest => (if c then [f] else []) ++ selectedFrags rest

/-- The transformed bound values of the blocks whose condition holds, in order. -/
def selectedValues : List (Bool × String × SqlValue) → List SqlValue
  | [] => []
  | (c, _, v) :: rest => (if c then [v] else []) ++ selectedValues rest

/-- Number a list of fragments sequentially starting after `n`, appending
each placeholder number to its fragment. -/
def numberFragments : Nat → List String → List String
  | _, [] => []
  | n, f :: fs => (f ++ Nat.repr (n + 1)) :: numberFragments (n + 1) fs

/-- Concatenate a list of strings in order. -/
def concatFrags : List String → String
  | [] => ""
  | f :: fs => f ++ concatFrags fs

/-- Count the dollar signs (parameter-placeholder markers) in a string. -/
def dollarCount (s : String) : Nat := s.data.countP (fun c => c == '$')

/-- Number of filter fields the builder treats as present (Python
truthiness: `None`, `0`, and `""` are absent). -/
def numPresent (survey_id : Option Int)
    (location date_from date_to respondent_type : Option String) : Nat :=
  (if truthyInt survey_id then 1 else 0) + (if truthyStr location then 1 else 0) +
    (if truthyStr date_from then 1 else 0) + (if truthyStr date_to then 1 else 0) +
    (if truthyStr respondent_type then 1 else 0)

/-- Spec-side description of the WHERE fragments: for each filter field in
the fixed declared order (identifier, location, date-from, date-to,
respondent-type), a fragment is emitted iff the field is present, and the
placeholder numbers count up sequentially from 1. -/
def specSurveyFragments (survey_id : Option Int)
    (location date_from date_to respondent_type : Option String) : List String :=
  numberFragments 0
    ((if truthyInt survey_id then [" AND survey_id = $"] else []) ++
      (if truthyStr location then [" AND location ILIKE $"] else []) ++
      (if truthyStr date_from then [" AND survey_date >= $"] else []) ++
      (if truthyStr date_to then [" AND survey_date <= $"] else []) ++
      (if truthyStr respondent_type then [" AND respondent_type = $"] else []))

/-- A JSON-ish value arriving in the MCP tool-call argument mapping. -/
inductive ArgValue where
  | int (n : Int)
  | str (s : String)
deriving DecidableEq, Repr

/-- Python truthiness of an `arguments.get(key)` result. -/
def truthyArg : Option ArgValue → Bool
  | none => false
  | some (ArgValue.int n) => n != 0
  | some (ArgValue.str s) => s != ""

/-- Python `str()` of an argument value, as f-string interpolation uses it. -/
def argToString : ArgValue → String
  | ArgValue.int n => Int.repr n
  | ArgValue.str s => s

/-- The argument mapping of one MCP tool call (union of the keys the three
tool schemas accept); a missing key is `none`. -/
structure ToolArguments where
  survey_id : Option ArgValue := none
  location : Option ArgValue := none
  date_from : Option ArgValue := none
  date_to : Option ArgValue := none
  respondent_type : Option ArgValue := none
  question_text : Option ArgValue := none
  response_text : Option ArgValue := none
  limit : Option ArgValue := none
deriving DecidableEq, Repr

/-- The two conditional search-condition blocks of the
`search_surveys_by_question` branch (server.py lines 279-291): each truthy
text appends one ILIKE condition with the next placeholder number and one
wildcard-wrapped parameter. -/
def search_conditions (question_text response_text : Option ArgValue) :
    List String × List SqlValue × Nat :=
  let st0 : List String × List SqlValue × Nat := ([], [], 0)
  let st1 := if truthyArg question_text then
      (st0.1 ++ ["questions_responses::text ILIKE $" ++ Nat.repr (st0.2.2 + 1)],
        st0.2.1 ++ [SqlValue.str ("%" ++ argToString (question_text.getD (ArgValue.str "")) ++ "%")],
        st0.2.2 + 1)
    else st0
  let st2 := if truthyArg response_text then
      (st1.1 ++ ["questions_responses::text ILIKE $" ++ Nat.repr (st1.2.2 + 1)],
        st1.2.1 ++ [SqlValue.str ("%" ++ argToString (response_text.getD (ArgValue.str "")) ++ "%")],
        st1.2.2 + 1)
    else st1
  st2

/-- Head of the search query f-string (server.py lines 303-313) up to the
WHERE keyword, reproduced with its exact whitespace. -/
def searchSelectHead : String :=
  "\n            SELECT \n                survey_id,\n                respondent_id,\n                survey_date,\n                location,\n                respondent_type,\n                questions_responses,\n                created_at\n            FROM surveys\n            WHERE "

/-- The search query f-string (server.py lines 303-316): conditions joined
by AND, then ORDER BY and a LIMIT clause that interpolates `str(limit)`
directly into the text. -/
def search_query_sql (conds : List String) (limit : ArgValue) : String :=
  searchSelectHead ++ String.intercalate " AND " conds ++
    "\n            ORDER BY survey_date DESC\n            LIMIT " ++ argToString limit ++
    "\n            "

/-- One row returned by the database: an ordered mapping column → value. -/
abbrev Row := List (String × SqlValue)

/-- The external database, modelled as an oracle giving each executed
query's outcome: rows, or a raised driver error. -/
structure Database where
  exec : BuiltQuery → Except String (List Row)

/-- Execute one query through the Data Access Layer: record it in the log
of executed queries and consult the database oracle. -/
def execQuery (db : Database) (q : BuiltQuery) (log : List BuiltQuery) :
    Except String (List Row) × List BuiltQuery :=
  (db.exec q, log ++ [q])

/-- Pydantic-style lax coercion of an argument to `int`: ints pass
through, integer-literal strings coerce, anything else fails validation. -/
def coerceInt : ArgValue → Except String Int
  | ArgValue.int n => Except.ok n
  | ArgValue.str s =>
    match s.toInt? with
    | some n => Except.ok n
    | none => Except.error "1 validation error for SurveyQueryParams: value is not a valid integer"

/-- Pydantic v2 coercion of an argument to `str`: only strings are valid. -/
def coerceStr : ArgValue → Except String String
  | ArgValue.str s => Except.ok s
  | ArgValue.int _ => Except.error "1 validation error for SurveyQueryParams: value is not a valid string"

/-- Validate an optional field, passing an absent value through. -/
def optField {α : Type} (coerce : ArgValue → Except String α) :
    Option ArgValue → Except String (Option α)
  | none => Except.ok none
  | some v => (coerce v).map some

/-- The validated parameter record `SurveyQueryParams` (server.py lines
40-47). -/
structure SurveyQueryParams where
  survey_id : Option Int
  location : Option String
  date_from : Option String
  date_to : Option String
  respondent_type : Option String
  limit : Int
deriving DecidableEq, Repr

/-- Validation model of `SurveyQueryParams(**arguments)`: each field
validates independently; `limit` is typed `int` with default 100 and no
positivity constraint. -/
def validateSurveyParams (a : ToolArguments) : Except String SurveyQueryParams := do
  let sid ← optField coerceInt a.survey_id
  let loc ← optField coerceStr a.location
  let df ← optField coerceStr a.date_from
  let dt ← optField coerceStr a.date_to
  let rt ← optField coerceStr a.respondent_type
  let lim ← (match a.limit with
    | none => Except.ok 100
    | some v => coerceInt v)
  Except.ok ⟨sid, loc, df, dt, rt, lim⟩

/-- Render one bound value into the JSON-shaped response text (stands in
for `json.dumps` with `default=str`). -/
def renderValue : SqlValue → String
  | SqlValue.int n => Int.repr n
  | SqlValue.str s => "\"" ++ s ++ "\""

/-- Render a row as a JSON object. -/
def renderRow (r : Row) : String :=
  "\x7b" ++ String.intercalate ", "
    (r.map (fun kv => "\"" ++ kv.1 ++ "\": " ++ renderValue kv.2)) ++ "\x7d"

/-- Render a list of rows as a JSON array. -/
def renderRows (rs : List Row) : String :=
  "[" ++ String.intercalate ", " (rs.map renderRow) ++ "]"

/-- Render the `count` + rows response of the fetch and search tools. -/
def renderCountAnd (label : String) (rs : List Row) : String :=
  "\x7b\"count\": " ++ Nat.repr rs.length ++ ", \"" ++ label ++ "\": " ++
    renderRows rs ++ "\x7d"

/-- Render a list of scalar values as a JSON array. -/
def renderValues (vs : List SqlValue) : String :=
  "[" ++ String.intercalate ", " (vs.map renderValue) ++ "]"

/-- Render a single-key JSON object holding a list of scalars. -/
def renderKeyedList (key : String) (vs : List SqlValue) : String :=
  "\x7b\"" ++ key ++ "\": " ++ renderValues vs ++ "\x7d"

/-- The fixed statistics query of `get_survey_statistics` (database.py
lines 148-157). -/
def statsQuery : String :=
  "\n        SELECT \n            COUNT(*) as total_surveys,\n            COUNT(DISTINCT location) as unique_locations,\n            COUNT(DISTINCT respondent_type) as respondent_types,\n            MIN(survey_date) as earliest_survey,\n            MAX(survey_date) as latest_survey,\n            COUNT(DISTINCT DATE(survey_date)) as survey_days\n        FROM surveys\n        "

/-- The fixed locations query of `get_locations` (database.py line 165). -/
def locationsQuery : String :=
  "SELECT DISTINCT location FROM surveys WHERE location IS NOT NULL ORDER BY location"

/-- The fixed respondent-types query of `get_respondent_types`
(database.py line 172). -/
def respondentTypesQuery : String :=
  "SELECT DISTINCT respondent_type FROM surveys WHERE respondent_type IS NOT NULL ORDER BY respondent_type"

/-- `get_survey_statistics`: run the fixed query, return the first row or
an empty mapping. -/
def get_survey_statistics_call (db : Database) (log : List BuiltQuery) :
    Except String Row × List BuiltQuery :=
  match execQuery db ⟨statsQuery, []⟩ log with
  | (Except.ok rows, log') => (Except.ok (rows.headD []), log')
  | (Except.error e, log') => (Except.error e, log')

/-- Extract one column from every row (`row[col]`), raising a KeyError if
a row lacks the column. -/
def extractColumn (col : String) : List Row → Except String (List SqlValue)
  | [] => Except.ok []
  | r :: rest =>
    match List.lookup col r with
    | some v =>
      match extractColumn col rest with
      | Except.ok vs => Except.ok (v :: vs)
      | Except.error e => Except.error e
    | none => Except.error ("'" ++ col ++ "'")

/-- `get_locations`: run the fixed query and project the location column. -/
def get_locations_call (db : Database) (log : List BuiltQuery) :
    Except String (List SqlValue) × List BuiltQuery :=
  match execQuery db ⟨locationsQuery, []⟩ log with
  | (Except.ok rows, log') => (extractColumn "location" rows, log')
  | (Except.error e, log') => (Except.error e, log')

/-- `get_respondent_types`: run the fixed query and project the
respondent_type column. -/
def get_respondent_types_call (db : Database) (log : List BuiltQuery) :
    Except String (List SqlValue) × List BuiltQuery :=
  match execQuery db ⟨respondentTypesQuery, []⟩ log with
  | (Except.ok rows, log') => (extractColumn "respondent_type" rows, log')
  | (Except.error e, log') => (Except.error e, log')

/-- The `fetch_survey_data` branch of `call_tool` (server.py lines
226-250): validate, build the query, execute, serialize. -/
def fetch_survey_data_handler (db : Database) (a : ToolArguments)
    (log : List BuiltQuery) : Except String String × List BuiltQuery :=
  match validateSurveyParams a with
  | Except.error e => (Except.error e, log)
  | Except.ok p =>
    match execQuery db (get_survey_data_query p.survey_id p.location p.date_from
        p.date_to p.respondent_type p.limit) log with
    | (Except.ok rows, log') => (Except.ok (renderCountAnd "surveys" rows), log')
    | (Except.error e, log') => (Except.error e, log')

/-- Render the `get_survey_summary` response object. -/
def renderSummary (stats : Row) (locations rtypes : List SqlValue) : String :=
  "\x7b\"statistics\": " ++ renderRow stats ++ ", \"available_locations\": " ++
    renderValues locations ++ ", \"available_respondent_types\": " ++
    renderValues rtypes ++ "\x7d"

/-- The `get_survey_summary` branch of `call_tool` (server.py lines
252-271): three sequential database calls combined into one response. -/
def get_survey_summary_handler (db : Database) (log : List BuiltQuery) :
    Except String String × List BuiltQuery :=
  match get_survey_statistics_call db log with
  | (Except.error e, log') => (Except.error e, log')
  | (Except.ok stats, log') =>
    match get_locations_call db log' with
    | (Except.error e, log'') => (Except.error e, log'')
    | (Except.ok locations, log'') =>
      match get_respondent_types_call db log'' with
      | (Except.error e, log''') => (Except.error e, log''')
      | (Except.ok rtypes, log''') =>
        (Except.ok (renderSummary stats locations rtypes), log''')

/-- The `search_surveys_by_question` branch of `call_tool` (server.py
lines 273-330): build conditions, reject when none, else build the query
text (interpolating `str(limit)` unvalidated) and execute. -/
def search_surveys_handler (db : Database) (a : ToolArguments)
    (log : List BuiltQuery) : Except String String × List BuiltQuery :=
  let limitArg := a.limit.getD (ArgValue.int 50)
  let st := search_conditions a.question_text a.response_text
  if st.1 = [] then
    (Except.ok "Error: At least one search parameter (question_text or response_text) is required", log)
  else
    match execQuery db ⟨search_query_sql st.1 limitArg, st.2.1⟩ log with
    | (Except.ok rows, log') => (Except.ok (renderCountAnd "matching_surveys" rows), log')
    | (Except.error e, log') => (Except.error e, log')

/-- Outcome of one handler invocation at the transport boundary: either a
well-formed response envelope, or an exception crossing the boundary
uncaught; both carry the queries executed before finishing. -/
inductive HandlerOutcome where
  | envelope (text : String) (executed : List BuiltQuery)
  | raised (msg : String) (executed : List BuiltQuery)
deriving DecidableEq, Repr

/-- Whether the outcome is a well-formed response envelope. -/
def HandlerOutcome.isEnvelope : HandlerOutcome → Bool
  | HandlerOutcome.envelope _ _ => true
  | HandlerOutcome.raised _ _ => false

/-- The queries the handler executed. -/
def HandlerOutcome.queries : HandlerOutcome → List BuiltQuery
  | HandlerOutcome.envelope _ qs => qs
  | HandlerOutcome.raised _ qs => qs

/-- The shared `except Exception` recovery block of `call_tool` and
`read_resource`: an inner exception becomes an `Error: ...` text envelope. -/
def finishEnvelope : Except String String × List BuiltQuery → HandlerOutcome
  | (Except.ok text, qs) => HandlerOutcome.envelope text qs
  | (Except.error e, qs) => HandlerOutcome.envelope ("Error: " ++ e) qs

/-- The `call_tool` dispatcher (server.py lines 210-351): an uninitialized
connection returns an error envelope before the `try` block; the four name
branches run inside `try`/`except`, so every inner exception is rendered
as an error envelope. -/
def call_tool (db : Option Database) (name : String) (a : ToolArguments) :
    HandlerOutcome :=
  match db with
  | none => HandlerOutcome.envelope "Error: Database connection not initialized" []
  | some d =>
    finishEnvelope
      (if name = "fetch_survey_data" then fetch_survey_data_handler d a []
        else if name = "get_survey_summary" then get_survey_summary_handler d []
        else if name = "search_surveys_by_question" then search_surveys_handler d a []
        else (Except.ok ("Error: Unknown tool '" ++ name ++ "'"), []))

/-- The `read_resource` handler (server.py lines 77-131): an uninitialized
connection raises `RuntimeError` BEFORE the `try` block (so it crosses the
boundary uncaught); the three resource branches and the unknown-resource
`ValueError` run inside `try`/`except` and are rendered as error text. -/
def read_resource (db : Option Database) (uri : String) : HandlerOutcome :=
  match db with
  | none => HandlerOutcome.raised "Database connection not initialized" []
  | some d =>
    finishEnvelope
      (if uri = "alloydb://surveys/statistics" then
          match get_survey_statistics_call d [] with
          | (Except.ok stats, log) => (Except.ok (renderRow stats), log)
          | (Except.error e, log) => (Except.error e, log)
        else if uri = "alloydb://surveys/locations" then
          match get_locations_call d [] with
          | (Except.ok vs, log) => (Except.ok (renderKeyedList "locations" vs), log)
          | (Except.error e, log) => (Except.error e, log)
        else if uri = "alloydb://surveys/respondent-types" then
          match get_respondent_types_call d [] with
          | (Except.ok vs, log) => (Except.ok (renderKeyedList "respondent_types" vs), log)
          | (Except.error e, log) => (Except.error e, log)
        else (Except.error ("Unknown resource: " ++ uri), []))

/-- Exit status of one Python coroutine call: normal return, exception, or
task cancellation. -/
inductive PyExit (α : Type) where
  | ok (a : α)
  | exc (msg : String)
  | cancelled
deriving DecidableEq, Repr

/-- Connection-lifecycle events of the Data Access Layer. -/
inductive DbEvent where
  | acquire
  | fetch (q : BuiltQuery)
  | close
deriving DecidableEq, Repr

/-- Control-flow model of `AlloyDBConnection.execute_query` (database.py
lines 63-82): raise before acquiring when uninitialized; otherwise acquire
a connection, run the fetch inside `try`, re-raise driver errors from the
`except` block, and run `conn.close()` in the `finally` block on every
exit (success, exception, or cancellation). The awaits' outcomes are
supplied by the environment. -/
def execute_query_run (initialized : Bool) (q : BuiltQuery)
    (getconnExit : PyExit Unit) (fetchExit : PyExit (List Row)) :
    List DbEvent × PyExit (List Row) :=
  if initialized = false then ([], PyExit.exc "Database connection not initialized")
  else
    match getconnExit with
    | PyExit.ok _ => ([DbEvent.acquire, DbEvent.fetch q, DbEvent.close], fetchExit)
    | PyExit.exc e => ([], PyExit.exc e)
    | PyExit.cancelled => ([], PyExit.cancelled)

/-- A database oracle on which every query succeeds with no rows. -/
def emptyDb : Database := ⟨fun _ => Except.ok []⟩

/-- Spec-side: the transformed parameter list the spec prescribes — one
value per present field, in declared order, the location value wrapped in
wildcard markers before binding. -/
def specSurveyParams (survey_id : Option Int)
    (location date_from date_to respondent_type : Option String) : List SqlValue :=
  (if truthyInt survey_id then [SqlValue.int (survey_id.getD 0)] else []) ++
    (if truthyStr location then [SqlValue.str ("%" ++ location.getD "" ++ "%")] else []) ++
    (if truthyStr date_from then [SqlValue.str (date_from.getD "")] else []) ++
    (if truthyStr date_to then [SqlValue.str (date_to.getD "")] else []) ++
    (if truthyStr respondent_type then [SqlValue.str (respondent_type.getD "")] else [])

/-- Whether `pat` is a prefix of `s` (character lists). -/
def listStartsWith : List Char → List Char → Bool
  | [], _ => true
  | _ :: _, [] => false
  | p :: ps, c :: cs => (p == c) && listStartsWith ps cs

/-- Whether `pat` occurs contiguously anywhere in `s` (character lists). -/
def containsSeq (pat : List Char) : List Char → Bool
  | [] => listStartsWith pat []
  | c :: cs => listStartsWith pat (c :: cs) || containsSeq pat cs

/-- The failing input of C3: a valid search text together with a string
`limit` carrying SQL text. -/
def injectionArgs : ToolArguments :=
  { question_text := some (ArgValue.str "a"),
    limit := some (ArgValue.str "1; DROP TABLE surveys --") }

/-- The SQL text the code builds at C3's failing input. -/
def injectionSql : String :=
  "\n            SELECT \n                survey_id,\n                respondent_id,\n                survey_date,\n                location,\n                respondent_type,\n                questions_responses,\n                created_at\n            FROM surveys\n            WHERE questions_responses::text ILIKE $1\n            ORDER BY survey_date DESC\n            LIMIT 1; DROP TABLE surveys --\n            "

/-- Spec-side: the Survey Record attribute (column) names, in the order
the spec's data model lists them. -/
def surveyRecordAttributes : List String :=
  ["survey_id", "respondent_id", "survey_date", "location", "respondent_type",
    "questions_responses", "metadata", "created_at", "updated_at"]

/-- The columns the search query SELECTs (server.py lines 304-311). -/
def searchSelectColumns : List String :=
  ["survey_id", "respondent_id", "survey_date", "location", "respondent_type",
    "questions_responses", "created_at"]

/-- The SQL text the code builds for `search_surveys_by_question` with
`question_text="abc"` and the default limit. -/
def searchAbcSql : String :=
  "\n            SELECT \n                survey_id,\n                respondent_id,\n                survey_date,\n                location,\n                respondent_type,\n                questions_responses,\n                created_at\n            FROM surveys\n            WHERE questions_responses::text ILIKE $1\n            ORDER BY survey_date DESC\n            LIMIT 50\n            "

theorem get_survey_data_query_eq_runFilters (survey_id : Option Int)
    (location date_from date_to respondent_type : Option String) (limit : Int) :
    get_survey_data_query survey_id location date_from date_to respondent_type limit =
      ⟨(runFilters (baseSurveyQuery, [], 0)
          (surveyFilterSteps survey_id location date_from date_to respondent_type)).1 ++
          " ORDER BY survey_date DESC LIMIT " ++ Int.repr limit,
        (runFilters (baseSurveyQuery, [], 0)
          (surveyFilterSteps survey_id location date_from date_to respondent_type)).2.1⟩ := rfl

theorem runFilters_sql (l : List (Bool × String × SqlValue)) :
    ∀ (q : String) (ps : List SqlValue) (n : Nat),
      (runFilters (q, ps, n) l).1 = q ++ concatFrags (numberFragments n (selectedFrags l)) := by
  induction l with
  | nil =>
    intro q ps n
    simp [runFilters, selectedFrags, numberFragments, concatFrags]
  | cons head rest ih =>
    intro q ps n
    obtain ⟨c, f, v⟩ := head
    cases c
    · simp only [runFilters, addFilter, selectedFrags]
      rw [ih]
      simp [numberFragments, concatFrags]
    · simp only [runFilters, addFilter, selectedFrags]
      rw [ih]
      simp [numberFragments, concatFrags, String.append_assoc]

theorem runFilters_params (l : List (Bool × String × SqlValue)) :
    ∀ (q : String) (ps : List SqlValue) (n : Nat),
      (runFilters (q, ps, n) l).2.1 = ps ++ selectedValues l := by
  induction l with
  | nil =>
    intro q ps n
    simp [runFilters, selectedValues]
  | cons head rest ih =>
    intro q ps n
    obtain ⟨c, f, v⟩ := head
    cases c
    · simp only [runFilters, addFilter, selectedValues]
      rw [ih]
      simp
    · simp only [runFilters, addFilter, selectedValues]
      rw [ih]
      simp

theorem runFilters_count (l : List (Bool × String × SqlValue)) :
    ∀ (q : String) (ps : List SqlValue) (n : Nat),
      (runFilters (q, ps, n) l).2.2 = n + (selectedFrags l).length := by
  induction l with
  | nil =>
    intro q ps n
    simp [runFilters, selectedFrags]
  | cons head rest ih =>
    intro q ps n
    obtain ⟨c, f, v⟩ := head
    cases c
    · simp only [runFilters, addFilter, selectedFrags]
      rw [ih]
      simp
    · simp only [runFilters, addFilter, selectedFrags]
      rw [ih]
      simp
      omega

theorem dollarCount_append (s t : String) :
    dollarCount (s ++ t) = dollarCount s + dollarCount t := by
  simp [dollarCount, String.data_append, List.countP_append]

theorem digitChar_ge16 (n : Nat) (h : 16 ≤ n) : Nat.digitChar n = '*' := by
  unfold Nat.digitChar
  repeat rw [if_neg (by omega)]

theorem digitChar_ne_dollar (n : Nat) : Nat.digitChar n ≠ '$' := by
  rcases Nat.lt_or_ge n 16 with h | h
  · interval_cases n <;> decide
  · rw [digitChar_ge16 n h]
    decide

theorem toDigitsCore_no_dollar (b : Nat) (fuel : Nat) :
    ∀ (n : Nat) (ds : List Char), '$' ∉ ds → '$' ∉ Nat.toDigitsCore b fuel n ds := by
  induction fuel with
  | zero =>
    intro n ds h
    simpa [Nat.toDigitsCore] using h
  | succ fuel ih =>
    intro n ds h
    rw [Nat.toDigitsCore]
    split
    · simp only [List.mem_cons, not_or]
      exact ⟨fun hx => digitChar_ne_dollar _ hx.symm, h⟩
    · refine ih _ _ ?_
      simp only [List.mem_cons, not_or]
      exact ⟨fun hx => digitChar_ne_dollar _ hx.symm, h⟩

theorem dollarCount_nat_repr (n : Nat) : dollarCount (Nat.repr n) = 0 := by
  have h : '$' ∉ Nat.toDigits 10 n := toDigitsCore_no_dollar 10 (n + 1) n [] (by simp)
  simp only [dollarCount, Nat.repr]
  rw [List.countP_eq_zero]
  intro a ha
  simp only [beq_iff_eq]
  intro hEq
  subst hEq
  exact h ha

theorem dollarCount_int_repr (i : Int) : dollarCount (Int.repr i) = 0 := by
  cases i with
  | ofNat m => simpa [Int.repr] using dollarCount_nat_repr m
  | negSucc m =>
    show dollarCount ("-" ++ Nat.repr (m + 1)) = 0
    rw [dollarCount_append, dollarCount_nat_repr]
    decide

theorem dollarCount_numberFragments (fs : List String)
    (h : ∀ f ∈ fs, dollarCount f = 1) :
    ∀ n : Nat, dollarCount (concatFrags (numberFragments n fs)) = fs.length := by
  induction fs with
  | nil =>
    intro n
    simp [numberFragments, concatFrags]
    decide
  | cons f rest ih =>
    intro n
    have hf : dollarCount f = 1 := h f (by simp)
    have hrest : ∀ g ∈ rest, dollarCount g = 1 := fun g hg => h g (by simp [hg])
    simp only [numberFragments, concatFrags, List.length_cons]
    rw [dollarCount_append, dollarCount_append, hf, dollarCount_nat_repr, ih hrest]
    omega

set_option maxRecDepth 4096 in
theorem dollarCount_baseSurveyQuery : dollarCount baseSurveyQuery = 0 := by decide

theorem selectedFrags_length (survey_id : Option Int)
    (location date_from date_to respondent_type : Option String) :
    (selectedFrags (surveyFilterSteps survey_id location date_from date_to
      respondent_type)).length =
      numPresent survey_id location date_from date_to respondent_type := by
  cases h1 : truthyInt survey_id <;> cases h2 : truthyStr location <;>
    cases h3 : truthyStr date_from <;> cases h4 : truthyStr date_to <;>
    cases h5 : truthyStr respondent_type <;>
    simp [surveyFilterSteps, selectedFrags, numPresent, h1, h2, h3, h4, h5]

theorem selectedFrags_subset (l : List (Bool × String × SqlValue)) :
    ∀ f ∈ selectedFrags l, f ∈ l.map (fun x => x.2.1) := by
  induction l with
  | nil => simp [selectedFrags]
  | cons head rest ih =>
    obtain ⟨c, g, v⟩ := head
    intro f hf
    simp only [selectedFrags] at hf
    rcases List.mem_append.1 hf with h | h
    · cases c
      · simp at h
      · simp at h
        simp [h]
    · simp [ih f h]

theorem selectedFrags_survey_dollar (survey_id : Option Int)
    (location date_from date_to respondent_type : Option String) :
    ∀ f ∈ selectedFrags (surveyFilterSteps survey_id location date_from date_to
      respondent_type), dollarCount f = 1 := by
  intro f hf
  have h := selectedFrags_subset _ f hf
  simp only [surveyFilterSteps, List.map] at h
  simp at h
  rcases h with h | h | h | h | h <;> subst h <;> decide

theorem selectedValues_length (l : List (Bool × String × SqlValue)) :
    (selectedValues l).length = (selectedFrags l).length := by
  induction l with
  | nil => simp [selectedValues, selectedFrags]
  | cons head rest ih =>
    obtain ⟨c, f, v⟩ := head
    cases c <;> simp [selectedValues, selectedFrags, ih]

theorem selectedFrags_surveySteps (survey_id : Option Int)
    (location date_from date_to respondent_type : Option String) :
    selectedFrags (surveyFilterSteps survey_id location date_from date_to respondent_type) =
      (if truthyInt survey_id then [" AND survey_id = $"] else []) ++
        (if truthyStr location then [" AND location ILIKE $"] else []) ++
        (if truthyStr date_from then [" AND survey_date >= $"] else []) ++
        (if truthyStr date_to then [" AND survey_date <= $"] else []) ++
        (if truthyStr respondent_type then [" AND respondent_type = $"] else []) := by
  simp [surveyFilterSteps, selectedFrags]

theorem dollarCount_orderLimit : dollarCount " ORDER BY survey_date DESC LIMIT " = 0 := by
  decide

/-- C1: for every filter set with k of the 5 optional fields present (in
the sense the builder tests presence, cf. C9: `None`, `0` and `""` count
as absent), the built query has exactly k placeholder markers, exactly k
bound parameters, and its SQL text decomposes as the base SELECT followed
by the present fields' predicate fragments in the fixed declared order
with sequentially numbered placeholders, followed by the ORDER BY / LIMIT
tail. -/
theorem survey_query_fixed_order_param_count (survey_id : Option Int)
    (location date_from date_to respondent_type : Option String) (limit : Int) :
    dollarCount (get_survey_data_query survey_id location date_from date_to
        respondent_type limit).sql
        = numPresent survey_id location date_from date_to respondent_type ∧
      (get_survey_data_query survey_id location date_from date_to
        respondent_type limit).params.length
        = numPresent survey_id location date_from date_to respondent_type ∧
      (get_survey_data_query survey_id location date_from date_to
        respondent_type limit).sql
        = baseSurveyQuery ++
          concatFrags (specSurveyFragments survey_id location date_from date_to
            respondent_type) ++
          " ORDER BY survey_date DESC LIMIT " ++ Int.repr limit := by
  rw [get_survey_data_query_eq_runFilters]
  refine ⟨?_, ?_, ?_⟩
  · show dollarCount ((runFilters (baseSurveyQuery, [], 0) _).1 ++ _ ++ _) = _
    rw [runFilters_sql]
    rw [dollarCount_append, dollarCount_append, dollarCount_append,
      dollarCount_baseSurveyQuery, dollarCount_int_repr, dollarCount_orderLimit,
      dollarCount_numberFragments _
        (selectedFrags_survey_dollar survey_id location date_from date_to respondent_type) 0,
      selectedFrags_length]
    omega
  · show (runFilters (baseSurveyQuery, [], 0) _).2.1.length = _
    rw [runFilters_params]
    rw [List.nil_append, selectedValues_length, selectedFrags_length]
  · show (runFilters (baseSurveyQuery, [], 0) _).1 ++ _ ++ _ = _
    rw [runFilters_sql]
    rw [specSurveyFragments, selectedFrags_surveySteps]

theorem finishEnvelope_isEnvelope (x : Except String String × List BuiltQuery) :
    (finishEnvelope x).isEnvelope = true := by
  obtain ⟨r, qs⟩ := x
  cases r <;> rfl

theorem search_conditions_conds (q r : Option ArgValue) :
    (search_conditions q r).1 =
      (if truthyArg q then ["questions_responses::text ILIKE $1"] else []) ++
        (if truthyArg r then
          [if truthyArg q then "questions_responses::text ILIKE $2"
            else "questions_responses::text ILIKE $1"] else []) := by
  cases hq : truthyArg q <;> cases hr : truthyArg r <;>
    simp [search_conditions, hq, hr] <;> try first | exact ⟨rfl, rfl⟩ | rfl

theorem search_conditions_params (q r : Option ArgValue) :
    (search_conditions q r).2.1 =
      (if truthyArg q then
        [SqlValue.str ("%" ++ argToString (q.getD (ArgValue.str "")) ++ "%")] else []) ++
      (if truthyArg r then
        [SqlValue.str ("%" ++ argToString (r.getD (ArgValue.str "")) ++ "%")] else []) := by
  cases hq : truthyArg q <;> cases hr : truthyArg r <;>
    simp [search_conditions, hq, hr]

/-- C10: with the process-wide database connection uninitialized,
`call_tool` returns the fixed error-text envelope for every tool name and
argument mapping, raises nothing, and executes no query. -/
theorem call_tool_uninitialized (name : String) (a : ToolArguments) :
    call_tool none name a =
      HandlerOutcome.envelope "Error: Database connection not initialized" [] := rfl

/-- C9: `get_survey_data` treats a supplied-but-falsy filter value
(`survey_id=0` or an empty string) exactly like an omitted one: the built
query is identical in text and parameters. -/
theorem survey_query_falsy_treated_as_absent (survey_id : Option Int)
    (location date_from date_to respondent_type : Option String) (limit : Int) :
    get_survey_data_query (some 0) location date_from date_to respondent_type limit
        = get_survey_data_query none location date_from date_to respondent_type limit ∧
      get_survey_data_query survey_id (some "") date_from date_to respondent_type limit
        = get_survey_data_query survey_id none date_from date_to respondent_type limit ∧
      get_survey_data_query survey_id location (some "") date_to respondent_type limit
        = get_survey_data_query survey_id location none date_to respondent_type limit ∧
      get_survey_data_query survey_id location date_from (some "") respondent_type limit
        = get_survey_data_query survey_id location date_from none respondent_type limit ∧
      get_survey_data_query survey_id location date_from date_to (some "") limit
        = get_survey_data_query survey_id location date_from date_to none limit :=
  ⟨rfl, rfl, rfl, rfl, rfl⟩

/-- C7: once `execute_query` has acquired a connection, the connection is
closed on every exit path: the event trace always ends with the close
event, whether the fetch returns rows, raises, or is cancelled, and the
fetch's exit status is passed through. -/
theorem execute_query_releases_connection (q : BuiltQuery)
    (fetchExit : PyExit (List Row)) :
    (execute_query_run true q (PyExit.ok ()) fetchExit).1
        = [DbEvent.acquire, DbEvent.fetch q, DbEvent.close] ∧
      DbEvent.close ∈ (execute_query_run true q (PyExit.ok ()) fetchExit).1 ∧
      (execute_query_run true q (PyExit.ok ()) fetchExit).2 = fetchExit := by
  refine ⟨rfl, ?_, rfl⟩
  simp [execute_query_run]

/-- C4: `search_surveys_by_question` with both text arguments absent
returns the user-visible error envelope directly and executes no query. -/
theorem search_requires_text (d : Database) (a : ToolArguments)
    (hq : a.question_text = none) (hr : a.response_text = none) :
    call_tool (some d) "search_surveys_by_question" a =
      HandlerOutcome.envelope
        "Error: At least one search parameter (question_text or response_text) is required"
        [] := by
  have hst : search_conditions a.question_text a.response_text = ([], [], 0) := by
    rw [hq, hr]
    rfl
  simp [call_tool, search_surveys_handler, hst, finishEnvelope]

theorem search_requires_text_witness :
    call_tool (some emptyDb) "search_surveys_by_question" {} =
      HandlerOutcome.envelope
        "Error: At least one search parameter (question_text or response_text) is required"
        [] :=
  search_requires_text emptyDb {} rfl rfl

/-- C5: with exactly one text argument present (presence being the code's
truthiness test, cf. C9), the search builder produces exactly one
case-insensitive substring predicate over the serialized blob column,
bound to the wildcard-wrapped argument; with both present, exactly two
such predicates joined by AND, each bound to its own wildcarded value. -/
theorem search_predicates_shape (q r : Option ArgValue) :
    (truthyArg q = true → truthyArg r = false →
      (search_conditions q r).1 = ["questions_responses::text ILIKE $1"] ∧
        String.intercalate " AND " (search_conditions q r).1
          = "questions_responses::text ILIKE $1" ∧
        (search_conditions q r).2.1
          = [SqlValue.str ("%" ++ argToString (q.getD (ArgValue.str "")) ++ "%")]) ∧
    (truthyArg q = false → truthyArg r = true →
      (search_conditions q r).1 = ["questions_responses::text ILIKE $1"] ∧
        (search_conditions q r).2.1
          = [SqlValue.str ("%" ++ argToString (r.getD (ArgValue.str "")) ++ "%")]) ∧
    (truthyArg q = true → truthyArg r = true →
      (search_conditions q r).1
          = ["questions_responses::text ILIKE $1", "questions_responses::text ILIKE $2"] ∧
        String.intercalate " AND " (search_conditions q r).1
          = "questions_responses::text ILIKE $1 AND questions_responses::text ILIKE $2" ∧
        (search_conditions q r).2.1
          = [SqlValue.str ("%" ++ argToString (q.getD (ArgValue.str "")) ++ "%"),
              SqlValue.str ("%" ++ argToString (r.getD (ArgValue.str "")) ++ "%")]) := by
  refine ⟨?_, ?_, ?_⟩ <;> intro hq hr <;>
    simp [search_conditions_conds, search_conditions_params, hq, hr] <;> try rfl

theorem search_predicates_shape_witness :
    ((search_conditions (some (ArgValue.str "abc")) none).1
        = ["questions_responses::text ILIKE $1"] ∧
      String.intercalate " AND " (search_conditions (some (ArgValue.str "abc")) none).1
        = "questions_responses::text ILIKE $1" ∧
      (search_conditions (some (ArgValue.str "abc")) none).2.1
        = [SqlValue.str "%abc%"]) ∧
    ((search_conditions (some (ArgValue.str "abc")) (some (ArgValue.str "xyz"))).1
        = ["questions_responses::text ILIKE $1", "questions_responses::text ILIKE $2"] ∧
      String.intercalate " AND "
          (search_conditions (some (ArgValue.str "abc")) (some (ArgValue.str "xyz"))).1
        = "questions_responses::text ILIKE $1 AND questions_responses::text ILIKE $2" ∧
      (search_conditions (some (ArgValue.str "abc")) (some (ArgValue.str "xyz"))).2.1
        = [SqlValue.str "%abc%", SqlValue.str "%xyz%"]) :=
  ⟨(search_predicates_shape (some (ArgValue.str "abc")) none).1 (by decide) (by decide),
    (search_predicates_shape (some (ArgValue.str "abc"))
      (some (ArgValue.str "xyz"))).2.2 (by decide) (by decide)⟩

theorem selectedValues_surveySteps (survey_id : Option Int)
    (location date_from date_to respondent_type : Option String) :
    selectedValues (surveyFilterSteps survey_id location date_from date_to respondent_type)
      = specSurveyParams survey_id location date_from date_to respondent_type := by
  simp [surveyFilterSteps, selectedValues, specSurveyParams]

/-- C2: the SQL text of the survey query and of the search query depends
only on which filter fields are present (and the limit), never on the
filter values themselves; every caller-controlled filter value goes into
the bound parameter list, the location and search texts wrapped in
wildcard markers before binding. -/
theorem builder_text_independent_of_values
    (sid₁ sid₂ : Option Int) (loc₁ loc₂ df₁ df₂ dt₁ dt₂ rt₁ rt₂ : Option String)
    (lim : Int) (q₁ q₂ r₁ r₂ : Option ArgValue) (slim : ArgValue)
    (h1 : truthyInt sid₁ = truthyInt sid₂) (h2 : truthyStr loc₁ = truthyStr loc₂)
    (h3 : truthyStr df₁ = truthyStr df₂) (h4 : truthyStr dt₁ = truthyStr dt₂)
    (h5 : truthyStr rt₁ = truthyStr rt₂)
    (h6 : truthyArg q₁ = truthyArg q₂) (h7 : truthyArg r₁ = truthyArg r₂) :
    (get_survey_data_query sid₁ loc₁ df₁ dt₁ rt₁ lim).sql
        = (get_survey_data_query sid₂ loc₂ df₂ dt₂ rt₂ lim).sql ∧
      (get_survey_data_query sid₁ loc₁ df₁ dt₁ rt₁ lim).params
        = specSurveyParams sid₁ loc₁ df₁ dt₁ rt₁ ∧
      search_query_sql (search_conditions q₁ r₁).1 slim
        = search_query_sql (search_conditions q₂ r₂).1 slim ∧
      (search_conditions q₁ r₁).2.1
        = (if truthyArg q₁ then
            [SqlValue.str ("%" ++ argToString (q₁.getD (ArgValue.str "")) ++ "%")] else [])
          ++ (if truthyArg r₁ then
            [SqlValue.str ("%" ++ argToString (r₁.getD (ArgValue.str "")) ++ "%")] else []) := by
  have e1 : selectedFrags (surveyFilterSteps sid₁ loc₁ df₁ dt₁ rt₁)
      = selectedFrags (surveyFilterSteps sid₂ loc₂ df₂ dt₂ rt₂) := by
    rw [selectedFrags_surveySteps, selectedFrags_surveySteps, h1, h2, h3, h4, h5]
  refine ⟨?_, ?_, ?_, ?_⟩
  · rw [get_survey_data_query_eq_runFilters, get_survey_data_query_eq_runFilters]
    show (runFilters (baseSurveyQuery, [], 0) _).1 ++ _ ++ _
      = (runFilters (baseSurveyQuery, [], 0) _).1 ++ _ ++ _
    rw [runFilters_sql, runFilters_sql, e1]
  · rw [get_survey_data_query_eq_runFilters]
    show (runFilters (baseSurveyQuery, [], 0) _).2.1 = _
    rw [runFilters_params, List.nil_append, selectedValues_surveySteps]
  · have e2 : (search_conditions q₁ r₁).1 = (search_conditions q₂ r₂).1 := by
      rw [search_conditions_conds, search_conditions_conds, h6, h7]
    rw [e2]
  · rw [search_conditions_params]

theorem builder_text_independent_of_values_witness :
    (get_survey_data_query (some 1) (some "Springfield") none none none 100).sql
      = (get_survey_data_query (some 2) (some "Shelbyville") none none none 100).sql :=
  (builder_text_independent_of_values (some 1) (some 2) (some "Springfield")
    (some "Shelbyville") none none none none none none 100
    (some (ArgValue.str "a")) (some (ArgValue.str "b")) none none (ArgValue.int 50)
    (by decide) (by decide) (by decide) (by decide) (by decide)
    (by decide) (by decide)).1

/-- C6 (amended): `call_tool` always returns a well-formed envelope (for
every connection state, tool name, and argument mapping, converting every
inner failure to error text), and `read_resource` does so whenever the
process-wide connection is initialized; unknown tool names and unknown
resource identifiers yield user-visible error envelopes. (As stated the
claim fails: an uninitialized-connection resource read raises, see the
counterexample.) -/
theorem dispatcher_recovery_boundary :
    (∀ (db : Option Database) (name : String) (a : ToolArguments),
        (call_tool db name a).isEnvelope = true) ∧
      (∀ (d : Database) (uri : String), (read_resource (some d) uri).isEnvelope = true) ∧
      (∀ (d : Database) (a : ToolArguments) (name : String),
        name ≠ "fetch_survey_data" → name ≠ "get_survey_summary" →
        name ≠ "search_surveys_by_question" →
        call_tool (some d) name a =
          HandlerOutcome.envelope ("Error: Unknown tool '" ++ name ++ "'") []) ∧
      (∀ (d : Database) (uri : String),
        uri ≠ "alloydb://surveys/statistics" → uri ≠ "alloydb://surveys/locations" →
        uri ≠ "alloydb://surveys/respondent-types" →
        read_resource (some d) uri =
          HandlerOutcome.envelope ("Error: Unknown resource: " ++ uri) []) := by
  refine ⟨?_, ?_, ?_, ?_⟩
  · intro db name a
    cases db with
    | none => rfl
    | some d => exact finishEnvelope_isEnvelope _
  · intro d uri
    exact finishEnvelope_isEnvelope _
  · intro d a name hn1 hn2 hn3
    show finishEnvelope _ = _
    rw [if_neg hn1, if_neg hn2, if_neg hn3]
    rfl
  · intro d uri hu1 hu2 hu3
    show finishEnvelope _ = _
    rw [if_neg hu1, if_neg hu2, if_neg hu3]
    rfl

/-- C6 fails as stated: a resource read arriving while the process-wide
connection is uninitialized raises RuntimeError before the `try` block, so
the failure crosses the transport boundary uncaught instead of becoming a
response envelope. -/
theorem read_resource_uninitialized_raises :
    read_resource none "alloydb://surveys/statistics" =
        HandlerOutcome.raised "Database connection not initialized" [] ∧
      (read_resource none "alloydb://surveys/statistics").isEnvelope = false :=
  ⟨rfl, rfl⟩

theorem dispatcher_recovery_boundary_witness :
    call_tool (some emptyDb) "nope" {} =
        HandlerOutcome.envelope "Error: Unknown tool 'nope'" [] ∧
      read_resource (some emptyDb) "alloydb://nope" =
        HandlerOutcome.envelope "Error: Unknown resource: alloydb://nope" [] :=
  ⟨dispatcher_recovery_boundary.2.2.1 emptyDb {} "nope"
      (by decide) (by decide) (by decide),
    dispatcher_recovery_boundary.2.2.2 emptyDb "alloydb://nope"
      (by decide) (by decide) (by decide)⟩

set_option maxRecDepth 100000 in
/-- C3 fails on the code: the search branch reads `limit` with no
validation at all, so a caller-supplied string is interpolated verbatim
into the LIMIT clause; the call succeeds with no InvalidArgument error,
query text is produced and executed, and the text contains the injected
SQL. -/
theorem search_limit_unvalidated_injection :
    call_tool (some emptyDb) "search_surveys_by_question" injectionArgs
        = HandlerOutcome.envelope (renderCountAnd "matching_surveys" [])
            [⟨injectionSql, [SqlValue.str "%a%"]⟩] ∧
      containsSeq ("DROP TABLE surveys").data injectionSql.data = true := by
  exact ⟨by decide, by decide⟩

set_option maxRecDepth 100000 in
/-- C8 fails as stated: the query `search_surveys_by_question` executes at
the concrete input `question_text="abc"` mentions neither the metadata
column nor the updated_at column anywhere in its text, although both are
Survey Record attributes — so the returned row mappings cannot carry the
full Survey Record. -/
theorem search_rows_missing_record_columns :
    (call_tool (some emptyDb) "search_surveys_by_question"
          { question_text := some (ArgValue.str "abc") }).queries
        = [⟨searchAbcSql, [SqlValue.str "%abc%"]⟩] ∧
      containsSeq ("metadata").data searchAbcSql.data = false ∧
      containsSeq ("updated_at").data searchAbcSql.data = false ∧
      "metadata" ∈ surveyRecordAttributes ∧
      "updated_at" ∈ surveyRecordAttributes := by
  exact ⟨by decide, by decide, by decide, by decide, by decide⟩

set_option maxRecDepth 100000 in
/-- C8 (amended): the rows `search_surveys_by_question` returns are keyed
by exactly the seven selected columns — every Survey Record attribute
except the metadata blob and the update timestamp: the search SQL's select
list is `searchSelectColumns`, which is the record attribute list minus
`metadata` and `updated_at`. -/
theorem search_select_column_list (conds : List String) (lim : ArgValue) :
    search_query_sql conds lim
        = "\n            SELECT \n                " ++
          String.intercalate ",\n                " searchSelectColumns ++
          "\n            FROM surveys\n            WHERE " ++
          String.intercalate " AND " conds ++
          "\n            ORDER BY survey_date DESC\n            LIMIT " ++
          argToString lim ++ "\n            " ∧
      searchSelectColumns
        = surveyRecordAttributes.filter
            (fun c => !(c == "metadata") && !(c == "updated_at")) ∧
      "metadata" ∉ searchSelectColumns ∧ "updated_at" ∉ searchSelectColumns := by
  refine ⟨?_, by decide, by decide, by decide⟩
  show searchSelectHead ++ String.intercalate " AND " conds ++ _ ++ argToString lim ++ _ = _
  rw [show searchSelectHead = "\n            SELECT \n                " ++
    String.intercalate ",\n                " searchSelectColumns ++
    "\n            FROM surveys\n            WHERE " from by decide]
